import Mathlib

/-
  Verification of the SparkFun u-blox GNSS STM32 bus transport
  (`SfeI2C` in sfe_bus.cpp), shallowly embedded in Lean 4.

  Machine integers are modelled as `Nat` with explicit `% 2^w` where the
  C++ types truncate (`uint8_t` parameters and HAL status values, the
  `uint16_t` byte count).  The `I2C_HandleTypeDef *_i2cPort` member is an
  `Option Nat` (`none` = `nullptr`); a non-null handle is identified by a
  `Nat`.  Each operation returns its C++ return value, the instance state
  after the call, and the ordered list of calls it issued to the STM32
  HAL bus service, so that claims about which bus transactions happen
  (and with which handle/address) are statable.
-/

namespace SparkFunUBloxGNSS

/-- The STM32 HAL status code for success, `HAL_OK` = 0. -/
def HAL_OK : Nat := 0

/-- The STM32 HAL timeout constant `HAL_MAX_DELAY` = 0xFFFFFFFF. -/
def HAL_MAX_DELAY : Nat := 4294967295

/-- The STM32 HAL register-address-width constant `I2C_MEMADD_SIZE_8BIT` = 1. -/
def I2C_MEMADD_SIZE_8BIT : Nat := 1

/-- One call issued to the underlying STM32 HAL bus service.  The first
argument of each constructor is the `I2C_HandleTypeDef *` pointer that was
passed (`none` models a null pointer being handed to the HAL). -/
inductive BusCall where
  | isDeviceReady (handle : Option Nat) (devAddress trials timeout : Nat)
  | memRead (handle : Option Nat) (devAddress memAddress memAddSize len timeout : Nat)
  | transmit (handle : Option Nat) (devAddress : Nat) (data : List Nat) (len timeout : Nat)
  | receive (handle : Option Nat) (devAddress len timeout : Nat)
  deriving DecidableEq

/-- The outcomes the HAL bus service would produce for each primitive in a
given environment: the status each call returns, and the two bytes a memory
read of the 0xFD/0xFE register pair yields. -/
structure HAL where
  isDeviceReadyStatus : Nat
  memReadStatus : Nat
  memReadMsb : Nat
  memReadLsb : Nat
  transmitStatus : Nat
  receiveStatus : Nat
  deriving DecidableEq

/-- The state of an `SfeI2C` instance: the stored `_i2cPort` pointer
(`none` = `nullptr`) and the stored `_address` byte. -/
structure SfeI2C where
  i2cPort : Option Nat
  address : Nat
  deriving DecidableEq

/-- The constructor `SfeI2C::SfeI2C()` : `_i2cPort{nullptr}, _address{0}`. -/
def SfeI2C.new : SfeI2C := { i2cPort := none, address := 0 }

/-- `SfeI2C::init(I2C_HandleTypeDef &i2cHandle, uint8_t address)`: stores the
handle only when `_i2cPort` is null, always stores the (truncated-to-byte)
address, and returns `true`. -/
def SfeI2C.init (s : SfeI2C) (i2cHandle : Nat) (address : Nat) : Bool × SfeI2C :=
  let address := address % 256
  let s1 := if s.i2cPort = none then { s with i2cPort := some i2cHandle } else s
  let s2 := { s1 with address := address }
  (true, s2)

/-- `SfeI2C::ping()`: returns `false` when `_i2cPort` is null, otherwise
calls `HAL_I2C_IsDeviceReady(_i2cPort, _address, 3, 5)` and returns `true`
exactly when the status is `HAL_OK`. -/
def SfeI2C.ping (s : SfeI2C) (hal : HAL) : Bool × SfeI2C × List BusCall :=
  match s.i2cPort with
  | none => (false, s, [])
  | some p =>
    let calls := [BusCall.isDeviceReady (some p) s.address 3 5]
    let ret := hal.isDeviceReadyStatus % 256
    if ret ≠ HAL_OK then (false, s, calls) else (true, s, calls)

/-- `SfeI2C::available()`: returns `false` (= 0 as `uint16_t`) when
`_i2cPort` is null, otherwise reads two bytes from register 0xFD via
`HAL_I2C_Mem_Read`; on failure returns 0, on success returns
`(uint16_t)msb << 8 | lsb`. -/
def SfeI2C.available (s : SfeI2C) (hal : HAL) : Nat × SfeI2C × List BusCall :=
  match s.i2cPort with
  | none => (0, s, [])
  | some p =>
    let calls := [BusCall.memRead (some p) s.address 253 I2C_MEMADD_SIZE_8BIT 2 HAL_MAX_DELAY]
    let ret := hal.memReadStatus % 256
    if ret ≠ HAL_OK then (0, s, calls)
    else
      let msb := hal.memReadMsb % 256
      let lsb := hal.memReadLsb % 256
      let bytesAvailable := ((msb <<< 8) ||| lsb) % 65536
      (bytesAvailable, s, calls)

/-- `SfeI2C::writeBytes(uint8_t *dataToWrite, uint8_t length)`: returns 0
immediately when the (byte-truncated) length is 0; otherwise calls
`HAL_I2C_Master_Transmit(_i2cPort, _address, dataToWrite, length,
HAL_MAX_DELAY)` — note the source does not check `_i2cPort` for null here —
and returns `length` on `HAL_OK`, 0 otherwise. -/
def SfeI2C.writeBytes (s : SfeI2C) (hal : HAL) (dataToWrite : List Nat) (length : Nat) :
    Nat × SfeI2C × List BusCall :=
  let length := length % 256
  if length = 0 then (0, s, [])
  else
    let calls := [BusCall.transmit s.i2cPort s.address dataToWrite length HAL_MAX_DELAY]
    let ret := hal.transmitStatus % 256
    if ret ≠ HAL_OK then (0, s, calls) else (length, s, calls)

/-- `SfeI2C::readBytes(uint8_t *data, uint8_t length)`: returns 0
immediately when the (byte-truncated) length is 0; otherwise calls
`HAL_I2C_Master_Receive(_i2cPort, _address, data, length, HAL_MAX_DELAY)` —
again without a null check on `_i2cPort` — and returns `length` on
`HAL_OK`, 0 otherwise. -/
def SfeI2C.readBytes (s : SfeI2C) (hal : HAL) (length : Nat) :
    Nat × SfeI2C × List BusCall :=
  let length := length % 256
  if length = 0 then (0, s, [])
  else
    let calls := [BusCall.receive s.i2cPort s.address length HAL_MAX_DELAY]
    let ret := hal.receiveStatus % 256
    if ret ≠ HAL_OK then (0, s, calls) else (length, s, calls)

/-- A HAL environment in which every primitive reports success and the
byte-count register pair reads (0x01, 0x02). -/
def halOk : HAL :=
  { isDeviceReadyStatus := 0, memReadStatus := 0, memReadMsb := 1, memReadLsb := 2,
    transmitStatus := 0, receiveStatus := 0 }

/-- A HAL environment in which every primitive reports `HAL_ERROR` (= 1). -/
def halFail : HAL :=
  { isDeviceReadyStatus := 1, memReadStatus := 1, memReadMsb := 1, memReadLsb := 2,
    transmitStatus := 1, receiveStatus := 1 }

/-- Shared arithmetic helper: for a byte `lsb`, shifting `msb` up by 8 and
or-ing in `lsb` is the big-endian combination `msb * 256 + lsb`. -/
theorem shiftLeft_or_byte (msb lsb : Nat) (hl : lsb < 256) :
    (msb <<< 8) ||| lsb = msb * 256 + lsb := by
  have hp : (2 : Nat) ^ 8 = 256 := by norm_num
  have h : lsb < 2 ^ 8 := by omega
  have key := Nat.mul_add_lt_is_or (a := msb) h
  rw [hp] at key
  rw [Nat.shiftLeft_eq, hp, Nat.mul_comm msb 256, ← key]

/-- Shared helper: ping never changes the instance state. -/
theorem ping_state_eq (s : SfeI2C) (hal : HAL) : (s.ping hal).2.1 = s := by
  cases hs : s.i2cPort with
  | none => simp [SfeI2C.ping, hs]
  | some p =>
    simp only [SfeI2C.ping, hs]
    split <;> rfl

/-- Shared helper: available never changes the instance state. -/
theorem available_state_eq (s : SfeI2C) (hal : HAL) : (s.available hal).2.1 = s := by
  cases hs : s.i2cPort with
  | none => simp [SfeI2C.available, hs]
  | some p =>
    simp only [SfeI2C.available, hs]
    split <;> rfl

/-- Shared helper: writeBytes never changes the instance state. -/
theorem writeBytes_state_eq (s : SfeI2C) (hal : HAL) (data : List Nat) (len : Nat) :
    (s.writeBytes hal data len).2.1 = s := by
  simp only [SfeI2C.writeBytes]
  split
  · rfl
  · split <;> rfl

/-- Shared helper: readBytes never changes the instance state. -/
theorem readBytes_state_eq (s : SfeI2C) (hal : HAL) (len : Nat) :
    (s.readBytes hal len).2.1 = s := by
  simp only [SfeI2C.readBytes]
  split
  · rfl
  · split <;> rfl

/-- Claim C1 (code bug): the spec invariant requires every transfer
operation on an unbound instance to fail safely without invoking the bus
service, and ping and available do guard the null handle; but on a freshly
constructed (never-bound) instance, writeBytes and readBytes with a nonzero
length still invoke the HAL, passing the null `_i2cPort` pointer, which the
HAL dereferences. -/
theorem C1_unbound_write_read_invoke_bus_with_null_handle :
    (SfeI2C.new.writeBytes halOk [181, 98] 2).2.2 =
      [BusCall.transmit none 0 [181, 98] 2 HAL_MAX_DELAY] ∧
    (SfeI2C.new.readBytes halOk 2).2.2 =
      [BusCall.receive none 0 2 HAL_MAX_DELAY] ∧
    (SfeI2C.new.ping halOk).2.2 = [] ∧
    (SfeI2C.new.available halOk).2.2 = [] := by
  refine ⟨by decide, by decide, rfl, rfl⟩

/-- Claim C2: starting from a fresh instance, bind(handleA, addrA) followed
by bind(handleB, addrB) leaves the stored handle at handleA
(first-bind-wins) while the stored address becomes addrB (last-bind-wins). -/
theorem C2_first_bind_wins_handle_last_bind_wins_address (s : SfeI2C)
    (hs : s.i2cPort = none)
    (handleA addrA handleB addrB : Nat) (hB : addrB < 256) :
    ((s.init handleA addrA).2.init handleB addrB).2.i2cPort = some handleA ∧
    ((s.init handleA addrA).2.init handleB addrB).2.address = addrB := by
  simp [SfeI2C.init, hs, Nat.mod_eq_of_lt hB]

/-- Witness for C2 at handleA = 7, addrA = 0x42, handleB = 9, addrB = 0x43. -/
theorem C2_first_bind_wins_witness :
    ((SfeI2C.new.init 7 66).2.init 9 67).2.i2cPort = some 7 ∧
    ((SfeI2C.new.init 7 66).2.init 9 67).2.address = 67 :=
  C2_first_bind_wins_handle_last_bind_wins_address SfeI2C.new rfl 7 66 9 67 (by decide)

/-- Claim C3: with a handle bound, available returns the big-endian
combination msb * 256 + lsb of the two register bytes when the bus-level
read succeeds, and 0 when it fails. -/
theorem C3_available_big_endian (s : SfeI2C) (hal : HAL) (p : Nat)
    (hsome : s.i2cPort = some p)
    (hm : hal.memReadMsb < 256) (hl : hal.memReadLsb < 256)
    (hst : hal.memReadStatus < 256) :
    (hal.memReadStatus = HAL_OK →
      (s.available hal).1 = hal.memReadMsb * 256 + hal.memReadLsb) ∧
    (hal.memReadStatus ≠ HAL_OK → (s.available hal).1 = 0) := by
  have hmod : hal.memReadStatus % 256 = hal.memReadStatus := Nat.mod_eq_of_lt hst
  constructor
  · intro h0
    simp only [SfeI2C.available, hsome, hmod, h0, HAL_OK, ne_eq, not_true_eq_false,
      if_false, ite_false, not_false_eq_true]
    rw [Nat.mod_eq_of_lt hm, Nat.mod_eq_of_lt hl, shiftLeft_or_byte _ _ hl,
      Nat.mod_eq_of_lt (by omega)]
  · intro hne
    have hne0 : hal.memReadStatus ≠ 0 := hne
    simp [SfeI2C.available, hsome, hmod, hne0, HAL_OK]

/-- Witness for C3: bound instance, register pair (0x01, 0x02) gives 258 on
success; a failing read gives 0. -/
theorem C3_available_big_endian_witness :
    ((SfeI2C.new.init 3 66).2.available halOk).1 = 258 ∧
    ((SfeI2C.new.init 3 66).2.available halFail).1 = 0 := by
  constructor
  · exact (C3_available_big_endian (SfeI2C.new.init 3 66).2 halOk 3
      (by decide) (by decide) (by decide) (by decide)).1 (by decide)
  · exact (C3_available_big_endian (SfeI2C.new.init 3 66).2 halFail 3
      (by decide) (by decide) (by decide) (by decide)).2 (by decide)

/-- Claim C4: for every length L in [1,255], writeBytes returns L when the
bus transmit succeeds and 0 on any bus-level failure, readBytes likewise,
and neither operation ever returns a count other than 0 or L. -/
theorem C4_write_read_all_or_nothing (s : SfeI2C) (hal : HAL) (data : List Nat) (L : Nat)
    (h1 : 1 ≤ L) (h2 : L ≤ 255)
    (ht : hal.transmitStatus < 256) (hr : hal.receiveStatus < 256) :
    (hal.transmitStatus = HAL_OK → (s.writeBytes hal data L).1 = L) ∧
    (hal.transmitStatus ≠ HAL_OK → (s.writeBytes hal data L).1 = 0) ∧
    (hal.receiveStatus = HAL_OK → (s.readBytes hal L).1 = L) ∧
    (hal.receiveStatus ≠ HAL_OK → (s.readBytes hal L).1 = 0) ∧
    ((s.writeBytes hal data L).1 = 0 ∨ (s.writeBytes hal data L).1 = L) ∧
    ((s.readBytes hal L).1 = 0 ∨ (s.readBytes hal L).1 = L) := by
  have hL : L % 256 = L := Nat.mod_eq_of_lt (by omega)
  have hL0 : ¬(L = 0) := by omega
  have htm : hal.transmitStatus % 256 = hal.transmitStatus := Nat.mod_eq_of_lt ht
  have hrm : hal.receiveStatus % 256 = hal.receiveStatus := Nat.mod_eq_of_lt hr
  simp only [SfeI2C.writeBytes, SfeI2C.readBytes, hL, hL0, if_false, htm, hrm,
    ite_false, HAL_OK, ne_eq, ite_not]
  by_cases hw : hal.transmitStatus = 0 <;> by_cases hp : hal.receiveStatus = 0 <;>
    simp [hw, hp]

/-- Witness for C4 at L = 3 on a bound instance, against an always-succeed
and an always-fail HAL environment. -/
theorem C4_write_read_all_or_nothing_witness :
    ((SfeI2C.new.init 4 66).2.writeBytes halOk [10, 20, 30] 3).1 = 3 ∧
    ((SfeI2C.new.init 4 66).2.writeBytes halFail [10, 20, 30] 3).1 = 0 ∧
    ((SfeI2C.new.init 4 66).2.readBytes halOk 3).1 = 3 ∧
    ((SfeI2C.new.init 4 66).2.readBytes halFail 3).1 = 0 := by
  have hOk := C4_write_read_all_or_nothing (SfeI2C.new.init 4 66).2 halOk [10, 20, 30] 3
    (by decide) (by decide) (by decide) (by decide)
  have hFail := C4_write_read_all_or_nothing (SfeI2C.new.init 4 66).2 halFail [10, 20, 30] 3
    (by decide) (by decide) (by decide) (by decide)
  exact ⟨hOk.1 (by decide), hFail.2.1 (by decide), hOk.2.2.1 (by decide),
    hFail.2.2.2.1 (by decide)⟩

/-- Claim C5: ping returns false whenever no handle is bound, and with a
handle bound it returns true exactly when the HAL presence check reports
HAL OK, false on every other status. -/
theorem C5_ping_present_iff_ack (s : SfeI2C) (hal : HAL) (p : Nat)
    (hst : hal.isDeviceReadyStatus < 256) :
    (s.i2cPort = none → (s.ping hal).1 = false) ∧
    (s.i2cPort = some p →
      ((s.ping hal).1 = true ↔ hal.isDeviceReadyStatus = HAL_OK)) := by
  have hmod : hal.isDeviceReadyStatus % 256 = hal.isDeviceReadyStatus :=
    Nat.mod_eq_of_lt hst
  constructor
  · intro hn
    simp [SfeI2C.ping, hn]
  · intro hsome
    simp only [SfeI2C.ping, hsome, hmod, HAL_OK, ne_eq, ite_not]
    by_cases h0 : hal.isDeviceReadyStatus = 0 <;> simp [h0]

/-- Witness for C5: unbound ping is false; bound ping is true against an
acknowledging HAL and false against a failing one. -/
theorem C5_ping_present_iff_ack_witness :
    (SfeI2C.new.ping halOk).1 = false ∧
    ((SfeI2C.new.init 6 66).2.ping halOk).1 = true ∧
    ((SfeI2C.new.init 6 66).2.ping halFail).1 = false := by
  have hUnbound := C5_ping_present_iff_ack SfeI2C.new halOk 6 (by decide)
  have hOk := C5_ping_present_iff_ack (SfeI2C.new.init 6 66).2 halOk 6 (by decide)
  have hFail := C5_ping_present_iff_ack (SfeI2C.new.init 6 66).2 halFail 6 (by decide)
  refine ⟨hUnbound.1 rfl, (hOk.2 (by decide)).mpr (by decide), ?_⟩
  cases hb : ((SfeI2C.new.init 6 66).2.ping halFail).1
  · rfl
  · exact absurd ((hFail.2 (by decide)).mp hb) (by decide)

/-- Claim C6: zero-length writeBytes and readBytes return 0 and issue no
call at all to the HAL bus service. -/
theorem C6_zero_length_is_noop (s : SfeI2C) (hal : HAL) (data : List Nat) :
    (s.writeBytes hal data 0).1 = 0 ∧ (s.writeBytes hal data 0).2.2 = [] ∧
    (s.readBytes hal 0).1 = 0 ∧ (s.readBytes hal 0).2.2 = [] := by
  simp [SfeI2C.writeBytes, SfeI2C.readBytes]

/-- Claim C7: once bound, the instance never returns to unbound — init
keeps the already-stored handle, and the four transfer operations leave the
whole state (handle and address) untouched. -/
theorem C7_bound_is_terminal (s : SfeI2C) (h : Nat) (hb : s.i2cPort = some h)
    (hNew a : Nat) (hal : HAL) (data : List Nat) (len : Nat) :
    (s.init hNew a).2.i2cPort = some h ∧
    (s.ping hal).2.1 = s ∧
    (s.available hal).2.1 = s ∧
    (s.writeBytes hal data len).2.1 = s ∧
    (s.readBytes hal len).2.1 = s :=
  ⟨by simp [SfeI2C.init, hb], ping_state_eq s hal, available_state_eq s hal,
    writeBytes_state_eq s hal data len, readBytes_state_eq s hal len⟩

/-- Witness for C7 on an instance bound to handle 5, address 0x42. -/
theorem C7_bound_is_terminal_witness :
    (((SfeI2C.new.init 5 66).2.init 9 70).2.i2cPort = some 5) ∧
    ((SfeI2C.new.init 5 66).2.ping halOk).2.1 = (SfeI2C.new.init 5 66).2 ∧
    ((SfeI2C.new.init 5 66).2.available halOk).2.1 = (SfeI2C.new.init 5 66).2 ∧
    ((SfeI2C.new.init 5 66).2.writeBytes halOk [1, 2] 2).2.1 = (SfeI2C.new.init 5 66).2 ∧
    ((SfeI2C.new.init 5 66).2.readBytes halOk 2).2.1 = (SfeI2C.new.init 5 66).2 :=
  C7_bound_is_terminal (SfeI2C.new.init 5 66).2 5 (by decide) 9 70 halOk [1, 2] 2

/-- Claim C8: init is idempotent — a second init call with the same handle
and address returns the same result and leaves the state unchanged. -/
theorem C8_init_idempotent (s : SfeI2C) (h a : Nat) :
    (s.init h a).2.init h a = s.init h a := by
  cases hs : s.i2cPort <;> simp [SfeI2C.init, hs]

/-- Claim C9: init always returns true, for every handle and every address
value, whether or not a handle is already stored. -/
theorem C9_init_always_succeeds (s : SfeI2C) (h a : Nat) :
    (s.init h a).1 = true := rfl

/-- Claim C10: a freshly constructed instance has a null stored handle and
address 0, and before any init call ping returns false and available
returns 0 in every HAL environment. -/
theorem C10_fresh_instance_unbound (hal : HAL) :
    SfeI2C.new.i2cPort = none ∧ SfeI2C.new.address = 0 ∧
    (SfeI2C.new.ping hal).1 = false ∧ (SfeI2C.new.available hal).1 = 0 :=
  ⟨rfl, rfl, rfl, rfl⟩
